import Mathlib

/-!
Shallow embedding of the TENEX → MEDICAR reconciliation service (`src/app.py`).

Remote collaborators (the TENEX registry and the MEDICAR back office) are
modelled as oracles: each outbound call is a field of a "world" record whose
value is either `Except.ok` (the parsed JSON response) or `Except.error ()`
(an `httpx` exception after the transport retries are exhausted).  The
per-event `try/except` of the webhooks maps every raised exception to an
`erro` outcome, so raises are encoded as immediate `erro` returns at each
call site.  Every function additionally reports how many times it invoked
each oracle (`Chamadas`), mirroring which HTTP requests the Python code
would have issued, plus how many 60-second `asyncio.sleep` suspensions the
plan poller performed.
-/

set_option autoImplicit false

/-- `only_digits` from `app.py`: keep only the digit characters of a string
(`re.sub(r"\D", "", s or "")`, restricted here to ASCII digits). -/
def only_digits (s : String) : String :=
  String.mk (s.data.filter Char.isDigit)

/-- `s.strip()`: drop leading and trailing whitespace. -/
def stripStr (s : String) : String :=
  String.mk (((s.data.dropWhile Char.isWhitespace).reverse.dropWhile Char.isWhitespace).reverse)

/-- `s.replace("-", "")`: remove every hyphen. -/
def semHifens (s : String) : String :=
  String.mk (s.data.filter (fun c => c != '-'))

/-- `only_ascii_upper` from `app.py`: drop non-ASCII characters, uppercase,
and strip surrounding whitespace. -/
def only_ascii_upper (s : String) : String :=
  stripStr (String.mk ((s.data.filter (fun c => c.toNat < 128)).map Char.toUpper))

/-- Python truthiness of an optional string (`None` and `""` are falsy). -/
def truthyS : Option String → Bool
  | none => false
  | some s => s != ""

/-- Python truthiness of an optional integer (`None` and `0` are falsy). -/
def truthyN : Option Nat → Bool
  | none => false
  | some n => n != 0

/-- `s.lower()` (the operation strings handled by the webhooks are ASCII). -/
def strLower (s : String) : String :=
  String.mk (s.data.map Char.toLower)

/-- One entry of a person's `planos_contratados` list in a carteira-virtual
response. -/
structure Plano where
  id_plano : Nat
  deriving Repr, DecidableEq

/-- One record of a `carteira-virtual` response (`p.get("cpf", "")` defaults
to the empty string, a missing or empty plan list is `[]`). -/
structure Pessoa where
  cpf : String
  planos_contratados : List Plano
  deriving Repr, DecidableEq

/-- A contact of the `clientes/?_expand=contatos` response, with the fields
the code reads via `.get`. -/
structure Contato where
  principal : Option Nat
  nome : Option String
  cpf : Option String
  data_nascimento : Option String
  genero : Option String
  deriving Repr, DecidableEq

/-- The expanded client record: upstream status code plus contact list
(`cliente_expand.get("contatos", [])` defaults to `[]`). -/
structure Cliente where
  status : Option Int
  contatos : List Contato
  deriving Repr, DecidableEq

/-- The `client/v1/contract` response fields the code reads. -/
structure Contrato where
  BBA_MATRIC : Option String
  tenantid : Option String
  deriving Repr, DecidableEq

/-- A back-office product/version pair of `PLAN_MAPPING_JSON`. -/
structure PlanoMapeado where
  codpro : String
  versao : String
  deriving Repr, DecidableEq

/-- The default `PLAN_MAPPING_JSON` table of `app.py`. -/
def defaultPlanMap (k : String) : Option PlanoMapeado :=
  if k == "34" || k == "35" then some { codpro := "0066", versao := "001" } else none

/-- The `data` object of one webhook item, with the fields the code reads. -/
structure ItemData where
  cpf : Option String
  id : Option Nat
  nome : Option String
  data_nascimento : Option String
  genero : Option String
  deriving Repr, DecidableEq

/-- The `header` object of one webhook item. -/
structure Header where
  operation : Option String
  deriving Repr, DecidableEq

/-- One incoming webhook item (`{"header": ..., "data": ...}`). -/
structure Item where
  header : Option Header
  data : Option ItemData
  deriving Repr, DecidableEq

/-- `item.get("data") or {}`. -/
def dataOf (i : Item) : ItemData :=
  i.data.getD { cpf := none, id := none, nome := none, data_nascimento := none, genero := none }

/-- `item.get("header") or {}`. -/
def headerOf (i : Item) : Header :=
  i.header.getD { operation := none }

/-- `(header.get("operation") or "").lower()`. -/
def opDe (i : Item) : String :=
  strLower ((headerOf i).operation.getD "")

/-- Per-event outcome statuses produced by the service. -/
inductive Status where
  | cadastrado
  | dependentes_atualizados
  | cancelado
  | ignorado
  | erro
  deriving Repr, DecidableEq

/-- One per-event result dictionary: its `cpf` key (absent on some paths),
its status, the literal `motivo`/`erro` detail string when the code supplies
one (exception texts are not modelled and appear as `none`), and the
`reentrada` flag set on reactivations. -/
structure Outcome where
  cpf : Option String
  status : Status
  detail : Option String := none
  reentrada : Bool := false
  deriving Repr, DecidableEq

/-- Count of oracle invocations (outbound HTTP requests) plus poller sleeps
performed while handling one event. -/
structure Chamadas where
  carteira : Nat := 0
  sleeps : Nat := 0
  expand : Nat := 0
  titular : Nat := 0
  contrato : Nat := 0
  dependentes : Nat := 0
  cancelar : Nat := 0
  novoExec : Nat := 0
  deriving Repr, DecidableEq

/-- The persistent `clientes_excluidos` table: client id ↦ cpf (the
`data_exclusao` timestamp is not relevant to any claim and is omitted). -/
abbrev Ledger := List (Nat × String)

/-- `db_salvar_excluido`: `INSERT OR REPLACE` keyed by `id_cliente`. -/
def db_salvar_excluido (led : Ledger) (idCliente : Nat) (cpf : String) : Ledger :=
  (idCliente, cpf) :: led.filter (fun e => e.1 != idCliente)

/-- `db_buscar_excluido`: lookup by `id_cliente`. -/
def db_buscar_excluido (led : Ledger) (idCliente : Nat) : Option String :=
  (led.find? (fun e => e.1 == idCliente)).map (fun e => e.2)

/-- `db_remover_excluido`: delete by `id_cliente`. -/
def db_remover_excluido (led : Ledger) (idCliente : Nat) : Ledger :=
  led.filter (fun e => e.1 != idCliente)

/-- The poll-loop break / final test of `process_novo_cliente_item`:
`isinstance(carteira, list) and carteira and carteira[0].get("planos_contratados")`. -/
def planoDisponivel : List Pessoa → Bool
  | [] => false
  | p :: _ => !p.planos_contratados.isEmpty

/-- `next((p for p in carteira if only_digits(p.get("cpf","")) == alvo), carteira[0])`:
prefer the exact tax-id match, fall back to the first record. -/
def escolherPessoa (carteira : List Pessoa) (alvo : String) : Pessoa :=
  match carteira.find? (fun p => only_digits p.cpf == alvo) with
  | some p => p
  | none => carteira.headD { cpf := "", planos_contratados := [] }

/-- Result of the 5-attempt plan-poll loop: the last `tenex_get_carteira`
response (or the exception that escaped the loop), the number of lookup
calls made, and the number of 60-second sleeps performed. -/
structure PollRes where
  carteira : Except Unit (List Pessoa)
  calls : Nat
  sleeps : Nat
  deriving Repr

/-- The `for tentativa in range(5)` poll loop of `process_novo_cliente_item`,
unrolled: each attempt fetches the carteira, breaks if the first record has
a non-empty plan list, and otherwise sleeps 60 s — including after the
fifth and final failed attempt. -/
def awaitPlano (fetch : Nat → Except Unit (List Pessoa)) : PollRes :=
  match fetch 0 with
  | Except.error e => ⟨Except.error e, 1, 0⟩
  | Except.ok c0 =>
    if planoDisponivel c0 then ⟨Except.ok c0, 1, 0⟩ else
    match fetch 1 with
    | Except.error e => ⟨Except.error e, 2, 1⟩
    | Except.ok c1 =>
      if planoDisponivel c1 then ⟨Except.ok c1, 2, 1⟩ else
      match fetch 2 with
      | Except.error e => ⟨Except.error e, 3, 2⟩
      | Except.ok c2 =>
        if planoDisponivel c2 then ⟨Except.ok c2, 3, 2⟩ else
        match fetch 3 with
        | Except.error e => ⟨Except.error e, 4, 3⟩
        | Except.ok c3 =>
          if planoDisponivel c3 then ⟨Except.ok c3, 4, 3⟩ else
          match fetch 4 with
          | Except.error e => ⟨Except.error e, 5, 4⟩
          | Except.ok c4 =>
            if planoDisponivel c4 then ⟨Except.ok c4, 5, 4⟩ else ⟨Except.ok c4, 5, 5⟩

/-- A normalized person dictionary as built for the MEDICAR payloads. -/
structure PessoaDict where
  nome : String
  cpf : String
  data_nascimento : String
  sexo : String
  nome_mae : String
  deriving Repr, DecidableEq

/-- `str(x.get("genero") or "2")`. -/
def sexoDe (g : Option String) : String :=
  match g with
  | none => "2"
  | some s => if s == "" then "2" else s

/-- `str(c.get("principal"))`, shared by titular and dependent filtering. -/
def strPrincipal (c : Contato) : String :=
  match c.principal with
  | some n => toString n
  | none => "None"

/-- Titular resolution of `process_novo_cliente_item`: the contact flagged
`principal == "1"`, falling back to the webhook `data` payload. -/
def resolverTitular (contatos : List Contato) (d : ItemData) : PessoaDict :=
  match contatos.find? (fun c => strPrincipal c == "1") with
  | some t =>
    { nome := only_ascii_upper (t.nome.getD "")
      cpf := only_digits (t.cpf.getD "")
      data_nascimento := semHifens (t.data_nascimento.getD "")
      sexo := sexoDe t.genero
      nome_mae := "NOME MAE NAO INFORMADO" }
  | none =>
    { nome := only_ascii_upper (d.nome.getD "")
      cpf := only_digits (d.cpf.getD "")
      data_nascimento := semHifens (d.data_nascimento.getD "")
      sexo := sexoDe d.genero
      nome_mae := "NOME MAE NAO INFORMADO" }

/-- The dependent-dictionary construction shared by both webhooks: keep the
contacts flagged `principal == "0"` that carry a truthy cpf, normalizing
their fields. -/
def buildDeps (contatos : List Contato) : List PessoaDict :=
  contatos.filterMap fun dep =>
    if strPrincipal dep != "0" then none
    else if !(truthyS dep.cpf) then none
    else some
      { nome := only_ascii_upper (dep.nome.getD "")
        cpf := only_digits (dep.cpf.getD "")
        data_nascimento := semHifens (dep.data_nascimento.getD "")
        sexo := sexoDe dep.genero
        nome_mae := "NOME MAE NAO INFORMADO" }

/-- The second filter inside `medicar_incluir_dependentes`: dependents whose
normalized name, cpf or birth date is empty are skipped before the payload
items are assembled. -/
def itensDependentes (dependentes : List PessoaDict) : List PessoaDict :=
  dependentes.filterMap fun dep =>
    if only_ascii_upper dep.nome == "" || only_digits dep.cpf == ""
        || dep.data_nascimento == "" then none
    else some { dep with nome := only_ascii_upper dep.nome, cpf := only_digits dep.cpf }

/-- Oracles for one `process_novo_cliente_item` run: the carteira lookup is
indexed by the attempt number, the remaining calls happen at most once. -/
structure NovoWorld where
  carteira : Nat → Except Unit (List Pessoa)
  clienteExpand : Except Unit (Option Cliente)
  incluirTitular : Except Unit Unit
  contratoLookup : Except Unit Contrato
  incluirDependentes : Except Unit Unit

/-- Result of one new-client reconciliation: outcome plus call log. -/
structure NovoRes where
  out : Outcome
  log : Chamadas
  deriving Repr

/-- `contatos = (cliente_expand or {}).get("contatos", []) if cliente_expand else []`. -/
def contatosDe (ce : Option Cliente) : List Contato :=
  match ce with
  | some cli => cli.contatos
  | none => []

/-- Steps 3–5 of `process_novo_cliente_item` after the family is resolved:
validity check of the titular, titular enrollment, membership-number lookup,
and dependent enrollment.  A raised exception becomes an `erro` outcome via
the surrounding handler. -/
def fluxoNovoCore (incTitular : Except Unit Unit) (lookup : Except Unit Contrato)
    (incDeps : Except Unit Unit) (cpf : String) (tit : PessoaDict)
    (deps : List PessoaDict) : NovoRes :=
  if tit.nome == "" || tit.cpf == "" then
    ⟨{ cpf := some cpf, status := Status.erro,
       detail := some "Titular inválido (sem nome/CPF)" }, { expand := 1 }⟩
  else
    match incTitular with
    | Except.error _ =>
      ⟨{ cpf := some cpf, status := Status.erro }, { expand := 1, titular := 1 }⟩
    | Except.ok _ =>
      match lookup with
      | Except.error _ =>
        ⟨{ cpf := some cpf, status := Status.erro },
         { expand := 1, titular := 1, contrato := 1 }⟩
      | Except.ok contr =>
        if !(truthyS contr.BBA_MATRIC) then
          ⟨{ cpf := some cpf, status := Status.erro,
             detail := some "Titular criado mas matrícula não retornou (BBA_MATRIC vazio)" },
           { expand := 1, titular := 1, contrato := 1 }⟩
        else
          if deps.isEmpty then
            ⟨{ cpf := some tit.cpf, status := Status.cadastrado },
             { expand := 1, titular := 1, contrato := 1 }⟩
          else
            match incDeps with
            | Except.error _ =>
              ⟨{ cpf := some cpf, status := Status.erro },
               { expand := 1, titular := 1, contrato := 1, dependentes := 1 }⟩
            | Except.ok _ =>
              ⟨{ cpf := some tit.cpf, status := Status.cadastrado },
               { expand := 1, titular := 1, contrato := 1, dependentes := 1 }⟩

/-- `process_novo_cliente_item` after a successful poll: select the person
record (preferring the exact cpf match), read its first contracted plan
(an empty list raises `IndexError`, caught as `erro`), translate the plan,
fetch the expanded contact list, resolve the family and run the enrollment
core. -/
def fluxoNovoPosCarteira (pm : String → Option PlanoMapeado) (w : NovoWorld)
    (cpf : String) (d : ItemData) (cart : List Pessoa) : NovoRes :=
  match (escolherPessoa cart (only_digits cpf)).planos_contratados with
  | [] => ⟨{ cpf := some cpf, status := Status.erro }, {}⟩
  | pl :: _ =>
    match pm (toString pl.id_plano) with
    | none =>
      ⟨{ cpf := some cpf, status := Status.ignorado,
         detail := some ("plano " ++ toString pl.id_plano ++ " não mapeado") }, {}⟩
    | some _ =>
      match w.clienteExpand with
      | Except.error _ => ⟨{ cpf := some cpf, status := Status.erro }, { expand := 1 }⟩
      | Except.ok ce =>
        let contatos := contatosDe ce
        fluxoNovoCore w.incluirTitular w.contratoLookup w.incluirDependentes cpf
          (resolverTitular contatos d) (buildDeps contatos)

/-- `process_novo_cliente_item`: field validation, the 5-attempt plan poll,
then the post-poll enrollment flow. -/
def processNovoClienteItem (pm : String → Option PlanoMapeado) (w : NovoWorld)
    (item : Item) : NovoRes :=
  let d := dataOf item
  if !(truthyS d.cpf) || !(truthyN d.id) then
    ⟨{ cpf := none, status := Status.erro,
       detail := some "Webhook sem cpf ou id_cliente em data" }, {}⟩
  else
    let cpf := d.cpf.getD ""
    let pr := awaitPlano w.carteira
    match pr.carteira with
    | Except.error _ =>
      ⟨{ cpf := some cpf, status := Status.erro },
       { carteira := pr.calls, sleeps := pr.sleeps }⟩
    | Except.ok cart =>
      if !(planoDisponivel cart) then
        ⟨{ cpf := some cpf, status := Status.ignorado,
           detail := some "Nenhum plano encontrado após 5 tentativas" },
         { carteira := pr.calls, sleeps := pr.sleeps }⟩
      else
        let r := fluxoNovoPosCarteira pm w cpf d cart
        ⟨r.out, { r.log with carteira := pr.calls, sleeps := pr.sleeps }⟩

/-- The gate outcome of `webhook_novo_cliente` for a non-insert operation. -/
def gateNovo (op : String) : Outcome :=
  { cpf := none, status := Status.ignorado,
    detail := some ("operation diferente de insert (" ++ op ++ ")") }

/-- `webhook_novo_cliente`: per-item gate (`op and op != "insert"` is
ignored) followed by `process_novo_cliente_item`; one outcome per item, in
order. -/
def webhookNovoCliente (pm : String → Option PlanoMapeado) (ws : Nat → NovoWorld)
    (items : List Item) : List Outcome :=
  items.enum.map fun p =>
    let op := opDe p.2
    if op != "" && op != "insert" then gateNovo op
    else (processNovoClienteItem pm (ws p.1) p.2).out

/-- Oracles for one `webhook_dependentes` item: its own calls plus a nested
`NovoWorld` for the reactivation re-run of `process_novo_cliente_item`. -/
structure DepWorld where
  clienteExpand : Except Unit (Option Cliente)
  carteira : Except Unit (List Pessoa)
  contratoLookup : Except Unit Contrato
  cancelar : Except Unit Unit
  incluirDependentes : Except Unit Unit
  novo : NovoWorld

/-- Result of one dependents-webhook item: outcome, resulting ledger, call log. -/
structure DepRes where
  out : Outcome
  ledger : Ledger
  log : Chamadas
  deriving Repr

/-- The status-2 exclusion flow of `webhook_dependentes`: verify a plan
exists, look up the membership number, cancel it, and only then record the
client in the exclusion ledger. -/
def fluxoExclusao (pm : String → Option PlanoMapeado) (w : DepWorld) (led : Ledger)
    (idCliente : Nat) (cpfd : String) : DepRes :=
  match w.carteira with
  | Except.error _ => ⟨{ cpf := some cpfd, status := Status.erro }, led, { carteira := 1 }⟩
  | Except.ok cart =>
    if !(planoDisponivel cart) then
      ⟨{ cpf := some cpfd, status := Status.ignorado,
         detail := some "Cliente sem plano ativo (exclusão)" }, led, { carteira := 1 }⟩
    else
      match (escolherPessoa cart cpfd).planos_contratados with
      | [] => ⟨{ cpf := some cpfd, status := Status.erro }, led, { carteira := 1 }⟩
      | pl :: _ =>
        match pm (toString pl.id_plano) with
        | none =>
          ⟨{ cpf := some cpfd, status := Status.ignorado,
             detail := some ("plano " ++ toString pl.id_plano ++ " não mapeado") },
           led, { carteira := 1 }⟩
        | some _ =>
          match w.contratoLookup with
          | Except.error _ =>
            ⟨{ cpf := some cpfd, status := Status.erro }, led,
             { carteira := 1, contrato := 1 }⟩
          | Except.ok contr =>
            if !(truthyS contr.BBA_MATRIC) then
              ⟨{ cpf := some cpfd, status := Status.ignorado,
                 detail := some "Sem matrícula para cancelar" }, led,
               { carteira := 1, contrato := 1 }⟩
            else
              match w.cancelar with
              | Except.error _ =>
                ⟨{ cpf := some cpfd, status := Status.erro }, led,
                 { carteira := 1, contrato := 1, cancelar := 1 }⟩
              | Except.ok _ =>
                ⟨{ cpf := some cpfd, status := Status.cancelado },
                 db_salvar_excluido led idCliente cpfd,
                 { carteira := 1, contrato := 1, cancelar := 1 }⟩

/-- The reactivation flow of `webhook_dependentes`: re-run the full
new-client flow, then remove the ledger entry (unconditionally) and set the
`reentrada` flag on whatever outcome the re-run produced. -/
def fluxoReentrada (pm : String → Option PlanoMapeado) (w : DepWorld) (led : Ledger)
    (idCliente : Nat) (item : Item) : DepRes :=
  let r := processNovoClienteItem pm w.novo item
  ⟨{ r.out with reentrada := true }, db_remover_excluido led idCliente, { novoExec := 1 }⟩

/-- The normal dependents-refresh flow of `webhook_dependentes`: verify the
plan, build the dependent set from the contact list, refuse to submit an
empty set, look up the membership number and re-submit the dependents. -/
def fluxoNormal (pm : String → Option PlanoMapeado) (w : DepWorld) (led : Ledger)
    (cpfd : String) (contatos : List Contato) : DepRes :=
  match w.carteira with
  | Except.error _ => ⟨{ cpf := some cpfd, status := Status.erro }, led, { carteira := 1 }⟩
  | Except.ok cart =>
    if !(planoDisponivel cart) then
      ⟨{ cpf := some cpfd, status := Status.ignorado,
         detail := some "Cliente sem plano ativo" }, led, { carteira := 1 }⟩
    else
      match (escolherPessoa cart cpfd).planos_contratados with
      | [] => ⟨{ cpf := some cpfd, status := Status.erro }, led, { carteira := 1 }⟩
      | pl :: _ =>
        match pm (toString pl.id_plano) with
        | none =>
          ⟨{ cpf := some cpfd, status := Status.ignorado,
             detail := some ("plano " ++ toString pl.id_plano ++ " não mapeado") },
           led, { carteira := 1 }⟩
        | some _ =>
          let deps := buildDeps contatos
          if deps.isEmpty then
            ⟨{ cpf := some cpfd, status := Status.ignorado,
               detail := some "Nenhum dependente encontrado" }, led, { carteira := 1 }⟩
          else
            match w.contratoLookup with
            | Except.error _ =>
              ⟨{ cpf := some cpfd, status := Status.erro }, led,
               { carteira := 1, contrato := 1 }⟩
            | Except.ok contr =>
              if !(truthyS contr.BBA_MATRIC) then
                ⟨{ cpf := some cpfd, status := Status.erro,
                   detail := some "Sem BBA_MATRIC para atualização" }, led,
                 { carteira := 1, contrato := 1 }⟩
              else
                match w.incluirDependentes with
                | Except.error _ =>
                  ⟨{ cpf := some cpfd, status := Status.erro }, led,
                   { carteira := 1, contrato := 1, dependentes := 1 }⟩
                | Except.ok _ =>
                  ⟨{ cpf := some cpfd, status := Status.dependentes_atualizados }, led,
                   { carteira := 1, contrato := 1, dependentes := 1 }⟩

/-- One item of `webhook_dependentes`: the `operation == "update"` gate, the
cpf/id validation, the expanded-client fetch, then the three-way branch —
status 2 chooses exclusion, otherwise a ledger hit chooses reactivation,
otherwise the normal dependents refresh. -/
def processDependentesItem (pm : String → Option PlanoMapeado) (w : DepWorld)
    (led : Ledger) (item : Item) : DepRes :=
  let op := opDe item
  if op != "update" then
    ⟨{ cpf := none, status := Status.ignorado,
       detail := some ("operation diferente de update (" ++ op ++ ")") }, led, {}⟩
  else
    let d := dataOf item
    if !(truthyS d.cpf) || !(truthyN d.id) then
      ⟨{ cpf := none, status := Status.erro,
         detail := some "Webhook sem cpf ou id_cliente" }, led, {}⟩
    else
      let cpfd := only_digits (d.cpf.getD "")
      let idCliente := d.id.getD 0
      match w.clienteExpand with
      | Except.error _ =>
        ⟨{ cpf := some cpfd, status := Status.erro }, led, { expand := 1 }⟩
      | Except.ok none =>
        ⟨{ cpf := some cpfd, status := Status.erro,
           detail := some "Cliente não encontrado no TENEX" }, led, { expand := 1 }⟩
      | Except.ok (some cli) =>
        if cli.status == some 2 then
          let r := fluxoExclusao pm w led idCliente cpfd
          ⟨r.out, r.ledger, { r.log with expand := 1 }⟩
        else
          match db_buscar_excluido led idCliente with
          | some _ =>
            let r := fluxoReentrada pm w led idCliente item
            ⟨r.out, r.ledger, { r.log with expand := 1 }⟩
          | none =>
            let r := fluxoNormal pm w led cpfd cli.contatos
            ⟨r.out, r.ledger, { r.log with expand := 1 }⟩

/-- The item loop of `webhook_dependentes`, threading the exclusion ledger
through the batch in input order. -/
def webhookDependentesGo (pm : String → Option PlanoMapeado) (ws : Nat → DepWorld) :
    Nat → Ledger → List Item → List Outcome × Ledger
  | _, led, [] => ([], led)
  | i, led, item :: resto =>
    let r := processDependentesItem pm (ws i) led item
    let fim := webhookDependentesGo pm ws (i + 1) r.ledger resto
    (r.out :: fim.1, fim.2)

/-- `webhook_dependentes`: process every item of the batch sequentially,
returning the ordered outcome list and the final ledger. -/
def webhookDependentes (pm : String → Option PlanoMapeado) (ws : Nat → DepWorld)
    (led : Ledger) (items : List Item) : List Outcome × Ledger :=
  webhookDependentesGo pm ws 0 led items

/-! ### Concrete fixtures used by counterexamples and witnesses -/

/-- A carteira record whose first contracted plan is the mapped plan 34. -/
def pessoa34 : Pessoa := { cpf := "11111111111", planos_contratados := [{ id_plano := 34 }] }

/-- A fully cooperative back office and registry for one new-client event. -/
def wNovoOk : NovoWorld :=
  { carteira := fun _ => Except.ok [pessoa34]
    clienteExpand := Except.ok none
    incluirTitular := Except.ok ()
    contratoLookup := Except.ok { BBA_MATRIC := some "M1", tenantid := none }
    incluirDependentes := Except.ok () }

/-- A registry whose carteira lookup always answers with an empty list: the
plan never appears. -/
def wSemPlano : NovoWorld :=
  { wNovoOk with carteira := fun _ => Except.ok [] }

/-- An insert item with a complete titular in its `data` payload. -/
def itemIns : Item :=
  { header := some { operation := some "insert" }
    data := some { cpf := some "11111111111", id := some 3, nome := some "Ana",
                   data_nascimento := some "1990-01-01", genero := some "1" } }

/-- An insert item whose fallback titular data has no name. -/
def itemSemNome : Item :=
  { header := some { operation := some "insert" }
    data := some { cpf := some "11111111111", id := some 3, nome := none,
                   data_nascimento := none, genero := none } }

/-- A dependents-webhook world whose upstream client is inactive (status 2)
with a mapped plan and a resolvable membership number. -/
def wDepC1 : DepWorld :=
  { clienteExpand := Except.ok (some { status := some 2, contatos := [] })
    carteira := Except.ok [pessoa34]
    contratoLookup := Except.ok { BBA_MATRIC := some "M1", tenantid := none }
    cancelar := Except.ok ()
    incluirDependentes := Except.ok ()
    novo := wNovoOk }

/-- An item whose declared operation is `delete`. -/
def itemDelete : Item :=
  { header := some { operation := some "delete" }
    data := some { cpf := some "11111111111", id := some 7, nome := some "Ana",
                   data_nascimento := none, genero := none } }

/-- The same event declared as `update`. -/
def itemUpd : Item :=
  { header := some { operation := some "update" }
    data := some { cpf := some "11111111111", id := some 7, nome := some "Ana",
                   data_nascimento := none, genero := none } }

/-- A dependents-webhook world whose client is active (status 1) and whose
nested new-client world never finds a plan: a reactivation that fails. -/
def wDepC2 : DepWorld :=
  { wDepC1 with
    clienteExpand := Except.ok (some { status := some 1, contatos := [] })
    novo := wSemPlano }

/-- An update event for client id 5. -/
def itemUpd5 : Item :=
  { header := some { operation := some "update" }
    data := some { cpf := some "22222222222", id := some 5, nome := none,
                   data_nascimento := none, genero := none } }

/-- A dependents-webhook world whose cancellation call fails. -/
def wDepC4err : DepWorld :=
  { wDepC1 with cancelar := Except.error () }

/-- The polling success condition as the spec states it (§4.1): the registry
returns at least one record and the record selected by preferring an exact
tax-id match over the first record has a non-empty contracted-plans list. -/
def condSucessoSpec (cart : List Pessoa) (alvo : String) : Bool :=
  !cart.isEmpty && !((escolherPessoa cart alvo).planos_contratados.isEmpty)

/-- A carteira whose first record has a plan but whose exact-cpf-match
record has an empty plan list. -/
def cartC6 : List Pessoa :=
  [{ cpf := "99999999999", planos_contratados := [{ id_plano := 34 }] },
   { cpf := "11111111111", planos_contratados := [] }]

/-- A registry answering with `cartC6` on every attempt. -/
def wC6 : NovoWorld :=
  { wNovoOk with carteira := fun _ => Except.ok cartC6 }

/-- A carteira whose only record carries the unmapped plan 99. -/
def cartC6b : List Pessoa :=
  [{ cpf := "11111111111", planos_contratados := [{ id_plano := 99 }] }]

/-- A registry answering with `cartC6b` on every attempt. -/
def wC6b : NovoWorld :=
  { wNovoOk with carteira := fun _ => Except.ok cartC6b }

/-- An item with no header at all. -/
def itemSemHeader : Item :=
  { header := none
    data := some { cpf := some "11111111111", id := some 3, nome := some "Ana",
                   data_nascimento := none, genero := none } }

/-- A contact flagged non-principal that has no cpf. -/
def contatoSemCpf : Contato :=
  { principal := some 0, nome := some "Dep Um", cpf := none,
    data_nascimento := some "2010-01-01", genero := some "1" }

/-! ### C1 -/

/-- C1 is false as stated: at this input the upstream status is inactive
(status code 2), a mapped plan and a membership number are available, yet —
because the declared operation is `delete`, not `update` — the dependents
webhook ignores the event before ever consulting the upstream status: no
cancellation is attempted and the ledger is untouched.  The declared
`operationKind` does gate the branching. -/
theorem c1_counterexample :
    wDepC1.clienteExpand = Except.ok (some { status := some 2, contatos := [] }) ∧
    (processDependentesItem defaultPlanMap wDepC1 [] itemDelete).out.status = Status.ignorado ∧
    (processDependentesItem defaultPlanMap wDepC1 [] itemDelete).log.cancelar = 0 ∧
    (processDependentesItem defaultPlanMap wDepC1 [] itemDelete).log.expand = 0 ∧
    (processDependentesItem defaultPlanMap wDepC1 [] itemDelete).ledger = [] := by
  refine ⟨?_, ?_, ?_, ?_, ?_⟩ <;> rfl

/-- C1 (amended): among events that pass the dependents webhook's
`operation == "update"` gate and carry a cpf and client id, an upstream
status of 2 routes the event to the cancellation flow regardless of the
ledger state or anything else in the event. -/
theorem c1_theorem (pm : String → Option PlanoMapeado) (w : DepWorld) (led : Ledger)
    (item : Item) (cli : Cliente)
    (hop : opDe item = "update")
    (hcpf : truthyS (dataOf item).cpf = true)
    (hid : truthyN (dataOf item).id = true)
    (hexp : w.clienteExpand = Except.ok (some cli))
    (hst : cli.status = some 2) :
    processDependentesItem pm w led item =
      (let r := fluxoExclusao pm w led ((dataOf item).id.getD 0)
                  (only_digits ((dataOf item).cpf.getD ""))
       ⟨r.out, r.ledger, { r.log with expand := 1 }⟩) := by
  simp [processDependentesItem, hop, hcpf, hid, hexp, hst]

/-- Witness for C1 at a concrete update event with upstream status 2. -/
theorem c1_witness :
    processDependentesItem defaultPlanMap wDepC1 [] itemUpd =
      (let r := fluxoExclusao defaultPlanMap wDepC1 [] 7 "11111111111"
       ⟨r.out, r.ledger, { r.log with expand := 1 }⟩) :=
  c1_theorem defaultPlanMap wDepC1 [] itemUpd { status := some 2, contatos := [] }
    (by rfl) (by rfl) (by rfl) (by rfl) (by rfl)

/-! ### C2 -/

/-- C2 is false as stated: client 5 has a ledger entry and an active
upstream status, the reactivation re-run of the new-client flow does NOT
succeed (it ends `ignorado` — no plan found), and yet the ledger entry is
removed.  Removal is not conditioned on a successful reactivation
enrollment. -/
theorem c2_counterexample :
    db_buscar_excluido [(5, "22222222222")] 5 = some "22222222222" ∧
    (processDependentesItem defaultPlanMap wDepC2 [(5, "22222222222")] itemUpd5).out.status
      = Status.ignorado ∧
    (processDependentesItem defaultPlanMap wDepC2 [(5, "22222222222")] itemUpd5).out.reentrada
      = true ∧
    (processDependentesItem defaultPlanMap wDepC2 [(5, "22222222222")] itemUpd5).ledger = [] ∧
    ¬ (processDependentesItem defaultPlanMap wDepC2 [(5, "22222222222")] itemUpd5).out.status
      = Status.cadastrado := by
  refine ⟨by rfl, by rfl, by rfl, by rfl, ?_⟩
  intro h
  have h2 : (processDependentesItem defaultPlanMap wDepC2 [(5, "22222222222")] itemUpd5).out.status
      = Status.ignorado := by rfl
  rw [h] at h2
  exact Status.noConfusion h2

/-- C2 (amended): for every update event whose client id has a ledger entry
and whose upstream status is not 2, the full new-client flow is re-run on
the event, the outcome is tagged `reentrada`, the dependents-refresh flow is
not taken, and the ledger entry is removed after the re-run completes —
regardless of whether the reactivation enrollment succeeded. -/
theorem c2_theorem (pm : String → Option PlanoMapeado) (w : DepWorld) (led : Ledger)
    (item : Item) (cli : Cliente) (e : String)
    (hop : opDe item = "update")
    (hcpf : truthyS (dataOf item).cpf = true)
    (hid : truthyN (dataOf item).id = true)
    (hexp : w.clienteExpand = Except.ok (some cli))
    (hst : (cli.status == some 2) = false)
    (hled : db_buscar_excluido led ((dataOf item).id.getD 0) = some e) :
    processDependentesItem pm w led item =
      ⟨{ (processNovoClienteItem pm w.novo item).out with reentrada := true },
       db_remover_excluido led ((dataOf item).id.getD 0),
       { expand := 1, novoExec := 1 }⟩ := by
  simp [processDependentesItem, fluxoReentrada, hop, hcpf, hid, hexp, hst, hled]

/-- Witness for C2 at the concrete failed-reactivation input. -/
theorem c2_witness :
    processDependentesItem defaultPlanMap wDepC2 [(5, "22222222222")] itemUpd5 =
      ⟨{ (processNovoClienteItem defaultPlanMap wDepC2.novo itemUpd5).out with reentrada := true },
       db_remover_excluido [(5, "22222222222")] 5,
       { expand := 1, novoExec := 1 }⟩ :=
  c2_theorem defaultPlanMap wDepC2 [(5, "22222222222")] itemUpd5
    { status := some 1, contatos := [] } "22222222222" (by rfl) (by rfl) (by rfl)
    (by rfl) (by rfl) (by rfl)

/-! ### C3 -/

/-- C3 is false as stated: when the plan never appears the poller makes 5
lookup attempts but performs 5 sixty-second suspensions, not 4 — the code
also sleeps after the fifth and final failed attempt — before yielding
`ignorado`. -/
theorem c3_counterexample :
    (processNovoClienteItem defaultPlanMap wSemPlano itemIns).log.carteira = 5 ∧
    ¬ (processNovoClienteItem defaultPlanMap wSemPlano itemIns).log.sleeps = 4 ∧
    (processNovoClienteItem defaultPlanMap wSemPlano itemIns).log.sleeps = 5 ∧
    (processNovoClienteItem defaultPlanMap wSemPlano itemIns).out.status = Status.ignorado ∧
    (processNovoClienteItem defaultPlanMap wSemPlano itemIns).out.detail
      = some "Nenhum plano encontrado após 5 tentativas" := by
  refine ⟨by rfl, ?_, by rfl, by rfl, by rfl⟩
  intro h
  have h5 : (processNovoClienteItem defaultPlanMap wSemPlano itemIns).log.sleeps = 5 := by rfl
  omega

/-- C3 (amended): for every valid new-client event whose plan never appears
upstream, the poller performs exactly 5 lookup attempts and exactly 5
sixty-second suspensions (one after every failed attempt, including the
last) and then yields the terminal outcome `ignorado` with reason
"Nenhum plano encontrado após 5 tentativas". -/
theorem c3_theorem (pm : String → Option PlanoMapeado) (w : NovoWorld) (item : Item)
    (g : Nat → List Pessoa)
    (hcpf : truthyS (dataOf item).cpf = true)
    (hid : truthyN (dataOf item).id = true)
    (hfetch : ∀ t, w.carteira t = Except.ok (g t))
    (hplano : ∀ t, planoDisponivel (g t) = false) :
    processNovoClienteItem pm w item =
      ⟨{ cpf := some ((dataOf item).cpf.getD ""), status := Status.ignorado,
         detail := some "Nenhum plano encontrado após 5 tentativas" },
       { carteira := 5, sleeps := 5 }⟩ := by
  have hp : awaitPlano w.carteira = ⟨Except.ok (g 4), 5, 5⟩ := by
    simp [awaitPlano, hfetch 0, hfetch 1, hfetch 2, hfetch 3, hfetch 4,
          hplano 0, hplano 1, hplano 2, hplano 3, hplano 4]
  simp [processNovoClienteItem, hcpf, hid, hp, hplano 4]

/-- Witness for C3 at a registry that always returns an empty carteira. -/
theorem c3_witness :
    processNovoClienteItem defaultPlanMap wSemPlano itemIns =
      ⟨{ cpf := some "11111111111", status := Status.ignorado,
         detail := some "Nenhum plano encontrado após 5 tentativas" },
       { carteira := 5, sleeps := 5 }⟩ :=
  c3_theorem defaultPlanMap wSemPlano itemIns (fun _ => []) (by rfl) (by rfl)
    (fun _ => rfl) (fun _ => rfl)

/-! ### C4 -/

/-- C4: within the cancellation flow, the exclusion-ledger entry is written
exactly when the cancellation call succeeds — if the flow changes the ledger
at all, the change is the upsert of this client and the outcome is
`cancelado`; if the cancellation call fails the ledger is unchanged and
(when the call was reached) the outcome is `erro`; if the cancellation call
was never made the ledger is unchanged; a made call ends in `cancelado` or
`erro`, and a `cancelado` outcome guarantees the entry was written. -/
theorem c4_theorem (pm : String → Option PlanoMapeado) (w : DepWorld) (led : Ledger)
    (idCliente : Nat) (cpfd : String) :
    ((fluxoExclusao pm w led idCliente cpfd).ledger ≠ led →
      (fluxoExclusao pm w led idCliente cpfd).ledger = db_salvar_excluido led idCliente cpfd ∧
      (fluxoExclusao pm w led idCliente cpfd).out.status = Status.cancelado ∧
      (fluxoExclusao pm w led idCliente cpfd).log.cancelar = 1) ∧
    (w.cancelar = Except.error () →
      (fluxoExclusao pm w led idCliente cpfd).ledger = led ∧
      ((fluxoExclusao pm w led idCliente cpfd).log.cancelar = 1 →
        (fluxoExclusao pm w led idCliente cpfd).out.status = Status.erro)) ∧
    ((fluxoExclusao pm w led idCliente cpfd).log.cancelar = 0 →
      (fluxoExclusao pm w led idCliente cpfd).ledger = led) ∧
    ((fluxoExclusao pm w led idCliente cpfd).log.cancelar = 1 →
      (fluxoExclusao pm w led idCliente cpfd).out.status = Status.cancelado ∨
      (fluxoExclusao pm w led idCliente cpfd).out.status = Status.erro) ∧
    ((fluxoExclusao pm w led idCliente cpfd).out.status = Status.cancelado →
      (fluxoExclusao pm w led idCliente cpfd).ledger = db_salvar_excluido led idCliente cpfd) := by
  unfold fluxoExclusao
  repeat' split
  all_goals simp_all

/-- Witness for C4: with a failing cancellation call the ledger stays empty
and the outcome is `erro`. -/
theorem c4_witness :
    (fluxoExclusao defaultPlanMap wDepC4err [] 9 "33333333333").ledger = [] ∧
    (fluxoExclusao defaultPlanMap wDepC4err [] 9 "33333333333").out.status = Status.erro := by
  have h := (c4_theorem defaultPlanMap wDepC4err [] 9 "33333333333").2.1 (by rfl)
  exact ⟨h.1, h.2 (by rfl)⟩

/-! ### C5 -/

/-- C5 is false as stated: at this input the resolved titular has no name,
the event terminates with `erro` "Titular inválido (sem nome/CPF)" — but
remote calls were attempted first: one carteira lookup and one expanded
contact fetch against the registry. -/
theorem c5_counterexample :
    (processNovoClienteItem defaultPlanMap wNovoOk itemSemNome).out.status = Status.erro ∧
    (processNovoClienteItem defaultPlanMap wNovoOk itemSemNome).out.detail
      = some "Titular inválido (sem nome/CPF)" ∧
    (processNovoClienteItem defaultPlanMap wNovoOk itemSemNome).log.carteira = 1 ∧
    (processNovoClienteItem defaultPlanMap wNovoOk itemSemNome).log.expand = 1 ∧
    ¬ ((processNovoClienteItem defaultPlanMap wNovoOk itemSemNome).log.carteira = 0 ∧
       (processNovoClienteItem defaultPlanMap wNovoOk itemSemNome).log.expand = 0) := by
  refine ⟨by rfl, by rfl, by rfl, by rfl, ?_⟩
  intro h
  have h1 : (processNovoClienteItem defaultPlanMap wNovoOk itemSemNome).log.carteira = 1 := by rfl
  have h2 := h.1
  omega

/-- C5 (amended): for every new-enrollment event whose resolved titular
lacks a non-empty name or a usable tax id, the event terminates with
outcome `erro` and no back-office calls — titular enrollment,
membership-number lookup, dependent enrollment — are attempted; the
registry lookups (plan poll, contact fetch) do happen before the rejection. -/
theorem c5_theorem (pm : String → Option PlanoMapeado) (w : NovoWorld) (cpf : String)
    (d : ItemData) (cart : List Pessoa) (pl : Plano) (resto : List Plano)
    (mp : PlanoMapeado) (ce : Option Cliente)
    (hpes : (escolherPessoa cart (only_digits cpf)).planos_contratados = pl :: resto)
    (hpm : pm (toString pl.id_plano) = some mp)
    (hexp : w.clienteExpand = Except.ok ce)
    (hinv : (resolverTitular (contatosDe ce) d).nome = "" ∨
            (resolverTitular (contatosDe ce) d).cpf = "") :
    fluxoNovoPosCarteira pm w cpf d cart =
      ⟨{ cpf := some cpf, status := Status.erro,
         detail := some "Titular inválido (sem nome/CPF)" }, { expand := 1 }⟩ := by
  rcases hinv with h | h <;>
    simp [fluxoNovoPosCarteira, fluxoNovoCore, hpes, hpm, hexp, h]

/-- Witness for C5 at the concrete nameless-titular input. -/
theorem c5_witness :
    fluxoNovoPosCarteira defaultPlanMap wNovoOk "11111111111" (dataOf itemSemNome) [pessoa34] =
      ⟨{ cpf := some "11111111111", status := Status.erro,
         detail := some "Titular inválido (sem nome/CPF)" }, { expand := 1 }⟩ :=
  c5_theorem defaultPlanMap wNovoOk "11111111111" (dataOf itemSemNome) [pessoa34]
    { id_plano := 34 } [] { codpro := "0066", versao := "001" } none
    (by rfl) (by rfl) (by rfl) (Or.inl (by rfl))

/-! ### C6 -/

/-- C6 is false as stated: at this input the spec's success condition (on
the preferred record) is false, yet the code accepts the very first attempt
as successful — one single carteira call, no further polling — because it
only tests the FIRST record's plan list; it then errors (IndexError on the
preferred record's empty plan list) instead of continuing to poll. -/
theorem c6_counterexample :
    condSucessoSpec cartC6 (only_digits "11111111111") = false ∧
    planoDisponivel cartC6 = true ∧
    (processNovoClienteItem defaultPlanMap wC6 itemIns).log.carteira = 1 ∧
    (processNovoClienteItem defaultPlanMap wC6 itemIns).out.status = Status.erro := by
  refine ⟨?_, ?_, ?_, ?_⟩ <;> rfl

/-- C6 (amended): the polling success condition tests the FIRST registry
record's contracted-plans list, while the plan id subsequently translated is
taken from the preferred record (exact tax-id match, else the first): under
a first-record success on attempt 1, exactly one lookup happens and the
translation key is the preferred record's head plan id — shown through the
unmapped-plan outcome naming that id. -/
theorem c6_theorem (pm : String → Option PlanoMapeado) (w : NovoWorld) (item : Item)
    (cart : List Pessoa) (pl : Plano) (resto : List Plano)
    (hcpf : truthyS (dataOf item).cpf = true)
    (hid : truthyN (dataOf item).id = true)
    (hfetch : w.carteira 0 = Except.ok cart)
    (hdisp : planoDisponivel cart = true)
    (hpes : (escolherPessoa cart (only_digits ((dataOf item).cpf.getD ""))).planos_contratados
      = pl :: resto)
    (hpm : pm (toString pl.id_plano) = none) :
    processNovoClienteItem pm w item =
      ⟨{ cpf := some ((dataOf item).cpf.getD ""), status := Status.ignorado,
         detail := some ("plano " ++ toString pl.id_plano ++ " não mapeado") },
       { carteira := 1 }⟩ := by
  have hp : awaitPlano w.carteira = ⟨Except.ok cart, 1, 0⟩ := by
    simp [awaitPlano, hfetch, hdisp]
  simp [processNovoClienteItem, fluxoNovoPosCarteira, hcpf, hid, hp, hdisp, hpes, hpm]

/-- Witness for C6 at a concrete single-attempt success with an unmapped
plan. -/
theorem c6_witness :
    processNovoClienteItem defaultPlanMap wC6b itemIns =
      ⟨{ cpf := some "11111111111", status := Status.ignorado,
         detail := some ("plano " ++ toString (99 : Nat) ++ " não mapeado") },
       { carteira := 1 }⟩ :=
  c6_theorem defaultPlanMap wC6b itemIns cartC6b { id_plano := 99 } []
    (by rfl) (by rfl) (by rfl) (by rfl) (by rfl) (by rfl)

/-! ### C9 -/

/-- C9: an event whose header carries no operation (or an empty one) is
processed by the new-client webhook as an insert — its outcome is exactly
the `process_novo_cliente_item` result — while the dependents webhook
ignores it with `ignorado` and leaves the ledger untouched. -/
theorem c9_theorem (pm : String → Option PlanoMapeado) (wN : NovoWorld) (wD : DepWorld)
    (led : Ledger) (item : Item)
    (hop : (headerOf item).operation.getD "" = "") :
    webhookNovoCliente pm (fun _ => wN) [item] = [(processNovoClienteItem pm wN item).out] ∧
    (processDependentesItem pm wD led item).out =
      { cpf := none, status := Status.ignorado,
        detail := some "operation diferente de update ()" } ∧
    (processDependentesItem pm wD led item).ledger = led := by
  have hop2 : opDe item = "" := by rw [opDe, hop]; rfl
  refine ⟨?_, ?_, ?_⟩
  · simp [webhookNovoCliente, hop2]
  · simp [processDependentesItem, hop2]
  · simp [processDependentesItem, hop2]

/-- Witness for C9 at a concrete header-less event. -/
theorem c9_witness :
    webhookNovoCliente defaultPlanMap (fun _ => wNovoOk) [itemSemHeader] =
      [(processNovoClienteItem defaultPlanMap wNovoOk itemSemHeader).out] ∧
    (processDependentesItem defaultPlanMap wDepC1 [] itemSemHeader).out =
      { cpf := none, status := Status.ignorado,
        detail := some "operation diferente de update ()" } ∧
    (processDependentesItem defaultPlanMap wDepC1 [] itemSemHeader).ledger = [] :=
  c9_theorem defaultPlanMap wNovoOk wDepC1 [] itemSemHeader (by rfl)

/-! ### C10 -/

/-- C10: in the dependents-refresh flow, when the contact list yields zero
usable dependents the outcome is `ignorado` "Nenhum dependente encontrado",
the ledger is unchanged, and no membership lookup or dependents submission
is made (the log records only the one carteira verification call). -/
theorem c10_theorem (pm : String → Option PlanoMapeado) (w : DepWorld) (led : Ledger)
    (cpfd : String) (contatos : List Contato) (cart : List Pessoa) (pl : Plano)
    (resto : List Plano) (mp : PlanoMapeado)
    (hcart : w.carteira = Except.ok cart)
    (hdisp : planoDisponivel cart = true)
    (hpes : (escolherPessoa cart cpfd).planos_contratados = pl :: resto)
    (hpm : pm (toString pl.id_plano) = some mp)
    (hdeps : buildDeps contatos = []) :
    fluxoNormal pm w led cpfd contatos =
      ⟨{ cpf := some cpfd, status := Status.ignorado,
         detail := some "Nenhum dependente encontrado" }, led, { carteira := 1 }⟩ := by
  simp [fluxoNormal, hcart, hdisp, hpes, hpm, hdeps]

/-- Witness for C10 at a concrete empty contact list. -/
theorem c10_witness :
    fluxoNormal defaultPlanMap wDepC1 [(3, "00000000000")] "22222222222" [] =
      ⟨{ cpf := some "22222222222", status := Status.ignorado,
         detail := some "Nenhum dependente encontrado" }, [(3, "00000000000")],
       { carteira := 1 }⟩ :=
  c10_theorem defaultPlanMap wDepC1 [(3, "00000000000")] "22222222222" []
    [pessoa34] { id_plano := 34 } [] { codpro := "0066", versao := "001" }
    (by rfl) (by rfl) (by rfl) (by rfl) (by rfl)

/-! ### C8 -/

/-- Dropping an element the predicate rejects from the middle of a list does
not change `find?`. -/
lemma find?_middle_none {α : Type} (p : α → Bool) (l1 l2 : List α) (c : α)
    (hc : p c = false) :
    (l1 ++ c :: l2).find? p = (l1 ++ l2).find? p := by
  induction l1 with
  | nil =>
    simp only [List.nil_append]
    exact List.find?_cons_of_neg _ (by simp [hc])
  | cons a t ih =>
    simp only [List.cons_append]
    cases ha : p a with
    | true => rw [List.find?_cons_of_pos _ ha, List.find?_cons_of_pos _ ha]
    | false =>
      rw [List.find?_cons_of_neg _ (by simp [ha]), List.find?_cons_of_neg _ (by simp [ha]), ih]

/-- A non-principal contact in the middle of the contact list does not
affect titular resolution. -/
lemma resolverTitular_middle (l1 l2 : List Contato) (c : Contato) (d : ItemData)
    (hc : strPrincipal c = "0") :
    resolverTitular (l1 ++ c :: l2) d = resolverTitular (l1 ++ l2) d := by
  unfold resolverTitular
  rw [find?_middle_none _ l1 l2 c (by rw [hc]; rfl)]

/-- A non-principal contact without a usable cpf contributes nothing to the
dependent set. -/
lemma buildDeps_middle (l1 l2 : List Contato) (c : Contato)
    (hc : strPrincipal c = "0") (hcpf : truthyS c.cpf = false) :
    buildDeps (l1 ++ c :: l2) = buildDeps (l1 ++ l2) := by
  unfold buildDeps
  rw [List.filterMap_append, List.filterMap_append, List.filterMap_cons]
  have hnone : (if strPrincipal c != "0" then none
      else if !(truthyS c.cpf) then none
      else some
        { nome := only_ascii_upper (c.nome.getD "")
          cpf := only_digits (c.cpf.getD "")
          data_nascimento := semHifens (c.data_nascimento.getD "")
          sexo := sexoDe c.genero
          nome_mae := "NOME MAE NAO INFORMADO" } : Option PessoaDict) = none := by
    rw [hc]
    simp [hcpf]
  rw [hnone]

/-- C8: a non-principal contact lacking a tax id is excluded from the
dependent set built for submission — and is also absent from the payload
items of `medicar_incluir_dependentes` since every submitted item carries a
non-empty cpf — and its presence or absence in the contact list leaves the
whole post-poll enrollment flow, and hence the event outcome, unchanged. -/
theorem c8_theorem :
    (∀ (l1 l2 : List Contato) (c : Contato), strPrincipal c = "0" → truthyS c.cpf = false →
      buildDeps (l1 ++ c :: l2) = buildDeps (l1 ++ l2)) ∧
    (∀ (pm : String → Option PlanoMapeado) (w : NovoWorld) (cpf : String) (d : ItemData)
       (cart : List Pessoa) (st : Option Int) (l1 l2 : List Contato) (c : Contato),
      strPrincipal c = "0" → truthyS c.cpf = false →
      fluxoNovoPosCarteira pm
          { w with clienteExpand := Except.ok (some { status := st, contatos := l1 ++ c :: l2 }) }
          cpf d cart =
        fluxoNovoPosCarteira pm
          { w with clienteExpand := Except.ok (some { status := st, contatos := l1 ++ l2 }) }
          cpf d cart) ∧
    (∀ (ds : List PessoaDict) (x : PessoaDict), x ∈ itensDependentes ds → x.cpf ≠ "") := by
  refine ⟨fun l1 l2 c hc hcpf => buildDeps_middle l1 l2 c hc hcpf, ?_, ?_⟩
  · intro pm w cpf d cart st l1 l2 c hc hcpf
    have h1 := resolverTitular_middle l1 l2 c d hc
    have h2 := buildDeps_middle l1 l2 c hc hcpf
    cases hpl : (escolherPessoa cart (only_digits cpf)).planos_contratados with
    | nil => simp [fluxoNovoPosCarteira, hpl]
    | cons pl resto =>
      cases hpm : pm (toString pl.id_plano) with
      | none => simp [fluxoNovoPosCarteira, hpl, hpm]
      | some mp =>
        simp only [fluxoNovoPosCarteira, hpl, hpm, contatosDe]
        rw [h1, h2]
  · intro ds x hx
    rw [itensDependentes, List.mem_filterMap] at hx
    obtain ⟨a, _, ha⟩ := hx
    split at ha
    · exact Option.noConfusion ha
    · rename_i hcond
      injection ha with ha2
      subst ha2
      intro heq
      apply hcond
      have hdig : only_digits a.cpf = "" := heq
      simp [hdig]

/-- Witness for C8: the cpf-less dependent contributes nothing to the
dependent set and its removal leaves the enrollment flow's result
unchanged. -/
theorem c8_witness :
    buildDeps [contatoSemCpf] = buildDeps [] ∧
    fluxoNovoPosCarteira defaultPlanMap
        { wNovoOk with
          clienteExpand := Except.ok (some { status := some 1, contatos := [contatoSemCpf] }) }
        "11111111111" (dataOf itemIns) [pessoa34] =
      fluxoNovoPosCarteira defaultPlanMap
        { wNovoOk with clienteExpand := Except.ok (some { status := some 1, contatos := [] }) }
        "11111111111" (dataOf itemIns) [pessoa34] :=
  ⟨c8_theorem.1 [] [] contatoSemCpf (by rfl) (by rfl),
   c8_theorem.2.1 defaultPlanMap wNovoOk "11111111111" (dataOf itemIns) [pessoa34]
     (some 1) [] [] contatoSemCpf (by rfl) (by rfl)⟩

/-! ### C7 -/

/-- Every outcome of the enrollment core carries a cpf. -/
lemma fluxoNovoCore_cpf_isSome (a : Except Unit Unit) (b : Except Unit Contrato)
    (c : Except Unit Unit) (cpf : String) (tit : PessoaDict) (deps : List PessoaDict) :
    (fluxoNovoCore a b c cpf tit deps).out.cpf.isSome = true := by
  unfold fluxoNovoCore
  repeat' split
  all_goals rfl

/-- Every outcome of the post-poll enrollment flow carries a cpf. -/
lemma fluxoNovoPos_cpf_isSome (pm : String → Option PlanoMapeado) (w : NovoWorld)
    (cpf : String) (d : ItemData) (cart : List Pessoa) :
    (fluxoNovoPosCarteira pm w cpf d cart).out.cpf.isSome = true := by
  unfold fluxoNovoPosCarteira
  repeat' split
  any_goals rfl
  exact fluxoNovoCore_cpf_isSome _ _ _ _ _ _

/-- Every outcome of a new-client event that carries a cpf and client id in
its payload also carries a cpf. -/
lemma processNovo_cpf_isSome (pm : String → Option PlanoMapeado) (w : NovoWorld)
    (item : Item) (hcpf : truthyS (dataOf item).cpf = true)
    (hid : truthyN (dataOf item).id = true) :
    (processNovoClienteItem pm w item).out.cpf.isSome = true := by
  unfold processNovoClienteItem
  simp only [hcpf, hid, Bool.not_true, Bool.or_self, Bool.false_eq_true, if_false]
  repeat' split
  any_goals rfl
  exact fluxoNovoPos_cpf_isSome _ _ _ _ _

/-- Every outcome of the cancellation flow carries the event's cpf. -/
lemma fluxoExclusao_cpf (pm : String → Option PlanoMapeado) (w : DepWorld) (led : Ledger)
    (idCliente : Nat) (cpfd : String) :
    (fluxoExclusao pm w led idCliente cpfd).out.cpf = some cpfd := by
  unfold fluxoExclusao
  repeat' split
  all_goals rfl

/-- Every outcome of the dependents-refresh flow carries the event's cpf. -/
lemma fluxoNormal_cpf (pm : String → Option PlanoMapeado) (w : DepWorld) (led : Ledger)
    (cpfd : String) (contatos : List Contato) :
    (fluxoNormal pm w led cpfd contatos).out.cpf = some cpfd := by
  unfold fluxoNormal
  repeat' split
  all_goals try rfl
  all_goals dsimp only
  all_goals split <;> rfl

/-- Every outcome of a gate-passing, well-formed dependents-webhook event
carries a cpf. -/
lemma processDep_cpf_isSome (pm : String → Option PlanoMapeado) (w : DepWorld)
    (led : Ledger) (item : Item) (hop : opDe item = "update")
    (hcpf : truthyS (dataOf item).cpf = true) (hid : truthyN (dataOf item).id = true) :
    (processDependentesItem pm w led item).out.cpf.isSome = true := by
  unfold processDependentesItem
  simp only [hop, bne_self_eq_false, Bool.false_eq_true, if_false, hcpf, hid,
    Bool.not_true, Bool.or_self]
  repeat' split
  any_goals rfl
  · rw [fluxoExclusao_cpf]
    rfl
  · exact processNovo_cpf_isSome pm w.novo item hcpf hid
  · rw [fluxoNormal_cpf]
    rfl

/-- The dependents-webhook loop produces one outcome per input item. -/
lemma webhookDependentesGo_length (pm : String → Option PlanoMapeado) (ws : Nat → DepWorld) :
    ∀ (items : List Item) (i : Nat) (led : Ledger),
      (webhookDependentesGo pm ws i led items).1.length = items.length := by
  intro items
  induction items with
  | nil => intro i led; rfl
  | cons it resto ih =>
    intro i led
    simp [webhookDependentesGo, ih]

/-- C7 (amended): both webhooks catch client-level errors per event and
enumerate exactly one outcome per input event in input order; every outcome
of an event that passes the operation gate and carries a cpf and client id
in its payload includes a tax id — but gate-ignored events and events
missing cpf/id produce outcomes without one. -/
theorem c7_theorem :
    (∀ (pm : String → Option PlanoMapeado) (ws : Nat → NovoWorld) (items : List Item),
      (webhookNovoCliente pm ws items).length = items.length) ∧
    (∀ (pm : String → Option PlanoMapeado) (ws : Nat → DepWorld) (led : Ledger)
       (items : List Item),
      (webhookDependentes pm ws led items).1.length = items.length) ∧
    (∀ (pm : String → Option PlanoMapeado) (w : NovoWorld) (item : Item),
      truthyS (dataOf item).cpf = true → truthyN (dataOf item).id = true →
      (processNovoClienteItem pm w item).out.cpf.isSome = true) ∧
    (∀ (pm : String → Option PlanoMapeado) (w : DepWorld) (led : Ledger) (item : Item),
      opDe item = "update" → truthyS (dataOf item).cpf = true →
      truthyN (dataOf item).id = true →
      (processDependentesItem pm w led item).out.cpf.isSome = true) := by
  refine ⟨?_, ?_, ?_, ?_⟩
  · intro pm ws items
    simp [webhookNovoCliente]
  · intro pm ws led items
    exact webhookDependentesGo_length pm ws items 0 led
  · intro pm w item hcpf hid
    exact processNovo_cpf_isSome pm w item hcpf hid
  · intro pm w led item hop hcpf hid
    exact processDep_cpf_isSome pm w led item hop hcpf hid

/-- C7 is false in its last part: a batch containing an event whose declared
operation is `delete` yields exactly one outcome, but that outcome carries
no tax id at all. -/
theorem c7_counterexample :
    ((webhookDependentes defaultPlanMap (fun _ => wDepC1) [] [itemDelete]).1.map Outcome.cpf)
      = [none] ∧
    (webhookDependentes defaultPlanMap (fun _ => wDepC1) [] [itemDelete]).1.length = 1 := by
  refine ⟨?_, ?_⟩ <;> rfl

/-- Witness for C7 at concrete batches and events. -/
theorem c7_witness :
    (webhookNovoCliente defaultPlanMap (fun _ => wNovoOk) [itemIns]).length = 1 ∧
    (processDependentesItem defaultPlanMap wDepC1 [] itemUpd).out.cpf.isSome = true :=
  ⟨c7_theorem.1 defaultPlanMap (fun _ => wNovoOk) [itemIns],
   c7_theorem.2.2.2 defaultPlanMap wDepC1 [] itemUpd (by rfl) (by rfl) (by rfl)⟩
